import Mathlib

/-!
Verification of the EN-POLE front-end scripts: the news-feed widget
(`DOMContentLoaded` handler with `displayNews`, `fetchWithTimeout`,
`loadNews`, `setInterval`) and the chat widget (`addMessage` and the
`chat-form` submit listener).

The DOM is modelled shallowly: a container's children form a list of
nodes; assigning `innerHTML` wholesale is one `blob` node, while
`appendChild` of a created element adds an `element` node.  Setting
`textContent` stores the string as plain text; setting an element's
`innerHTML` stores it as markup, which the browser parses.  Network
behaviour is a parameter: each call site receives a description of how
the single request it issues would settle.
-/

set_option autoImplicit false

namespace ENPole

/-- Content of a DOM element: `text s` models `el.textContent = s`
(rendered verbatim), `markup s` models `el.innerHTML = s` (parsed as
HTML). -/
inductive NodeContent where
  | text (s : String)
  | markup (s : String)
  deriving DecidableEq

/-- A DOM element as created by the scripts: tag, classes added via
`classList.add`, and its content. -/
structure DomElem where
  tag : String
  classes : List String
  content : NodeContent
  deriving DecidableEq

/-- A child node of a container: either an element appended with
`appendChild`, or the parsed result of a wholesale `innerHTML`
assignment, kept as the raw markup string. -/
inductive DomNode where
  | element (el : DomElem)
  | blob (html : String)
  deriving DecidableEq

/-- The children of a container element. -/
abbrev Container := List DomNode

/-- Text extraction from markup, modelling how the browser renders a
string assigned to `innerHTML`: characters between `<` and `>` are
interpreted as tags and do not appear in the rendered text.  (Entity
decoding is not modelled; no property here depends on it.)  The `inTag`
flag is true while scanning inside a tag. -/
def htmlTextAux (inTag : Bool) : List Char → List Char
  | [] => []
  | c :: rest =>
    if inTag then
      if c = '>' then htmlTextAux false rest else htmlTextAux true rest
    else
      if c = '<' then htmlTextAux true rest else c :: htmlTextAux false rest

/-- The text a user sees for a node content: `textContent` is shown
verbatim; `innerHTML` is parsed as markup first. -/
def NodeContent.renderedText : NodeContent → String
  | .text s => s
  | .markup s => String.mk (htmlTextAux false s.data)

/-- `containsStr needle hay` : `needle` occurs contiguously in `hay`. -/
def containsStr (needle hay : String) : Prop :=
  ∃ p q : String, hay = p ++ needle ++ q

/-! ### News widget (the `DOMContentLoaded` script) -/

/-- `const API_URL = "https://en-pole.onrender.com/news?limit=20"`. -/
def API_URL : String := "https://en-pole.onrender.com/news?limit=20"

/-- The markup assigned by `showLoading()`. -/
def loadingHTML : String := "<p id=\"loading\">Chargement des actus…</p>"

/-- The fixed "no news" placeholder markup assigned by `displayNews`
when the item list is missing or empty. -/
def noNewsHTML : String :=
  "<div class=\"news-item\"><p>Pas de nouvelles informations cette heure-ci, revenez plus tard.</p></div>"

/-- One news item as consumed by `displayNews`; `published_at` is kept
as the raw value handed to `new Date(...)`. -/
structure NewsItem where
  title : String
  summary : String
  url : String
  published_at : String
  sources : List String
  deriving DecidableEq

/-- The anchor produced for one item:
`<a href="${item.url}" target="_blank" rel="noopener">Lire l'article</a>`. -/
def anchorHTML (url : String) : String :=
  "<a href=\"" ++ url ++ "\" target=\"_blank\" rel=\"noopener\">Lire l\x27article</a>"

/-- The template-literal markup `displayNews` assigns to each per-item
block, with `fmt` standing for the environment-dependent
`new Date(...).toLocaleString()` formatting. -/
def newsItemHTML (fmt : String → String) (it : NewsItem) : String :=
  "\n        <h3>" ++ it.title ++ "</h3>\n        <p>" ++ it.summary ++
  "</p>\n        " ++ anchorHTML it.url ++
  "\n        <small>Publié le " ++ fmt it.published_at ++
  " — Sources: " ++ String.intercalate ", " it.sources ++ "</small>\n      "

/-- The element `displayNews` appends for one item: a `div` with class
`news-item` whose `innerHTML` is the interpolated template. -/
def newsItemNode (fmt : String → String) (it : NewsItem) : DomNode :=
  .element ⟨"div", ["news-item"], .markup (newsItemHTML fmt it)⟩

/-- `displayNews(items)`. It first resets the container
(`newsContainer.innerHTML = ""`), so the prior children `_c` are
discarded; then either assigns the placeholder markup (when `!items ||
items.length === 0`) or appends one block per item via `forEach`. -/
def displayNews (fmt : String → String) (items : Option (List NewsItem))
    (_c : Container) : Container :=
  match items with
  | none => [.blob noNewsHTML]
  | some l =>
    if l.length = 0 then [.blob noNewsHTML]
    else l.foldl (fun acc it => acc ++ [newsItemNode fmt it]) ([] : Container)

/-- Whether a node is a per-item block appended by the `forEach` loop of
`displayNews` (an element carrying the `news-item` class). -/
def isItemBlock : DomNode → Bool
  | .element el => el.classes.contains "news-item"
  | .blob _ => false

/-! ### Time-bounded fetch (`fetchWithTimeout`) -/

/-- `response.ok`: the status is in the 2xx success range. -/
def isOkStatus (status : Nat) : Bool := decide (200 ≤ status ∧ status < 300)

/-- A settled `fetch` response, with `json` the eventual result of
`await response.json()` (which may itself reject with a decode
error). -/
structure Response (α : Type) where
  status : Nat
  json : Except String α

/-- `response.ok` for a decoded response. -/
def Response.ok {α : Type} (r : Response α) : Bool := isOkStatus r.status

/-- How a call through `fetchWithTimeout` can fail: `abort` is the
`AbortError` DOMException raised when the wrapper's timer fires
`controller.abort()` and the pending request is cancelled (the
failure the spec names `TimeoutError`); `network` is a transport-level
rejection of `fetch` itself. -/
inductive FetchErr where
  | abort (msg : String)
  | network (msg : String)
  deriving DecidableEq

/-- `err.message` of a fetch failure. -/
def FetchErr.message : FetchErr → String
  | .abort m => m
  | .network m => m

/-- Description of how the network would treat one request: when the
underlying `fetch` would settle (`none` = never), how it settles
(a transport rejection message, or a response), and the
browser-chosen message of the `AbortError` DOMException should the
request be aborted. -/
structure FetchSpec (α : Type) where
  delay : Option Nat
  result : Except String (Response α)
  abortMsg : String

/-- `fetchWithTimeout(resource, { timeout })`: starts a timer of
`timeout` ms that aborts the request through an `AbortController`,
awaits the `fetch`, and clears the timer in `finally`.  If the fetch
settles no later than the timer fires, its own outcome is returned and
no abort happens; otherwise the timer fires, the request is aborted
(first component `true`) and the call rejects with the `AbortError`. -/
def fetchWithTimeout {α : Type} (timeout : Nat) (net : FetchSpec α) :
    Bool × Except FetchErr (Response α) :=
  match net.delay with
  | none => (true, .error (.abort net.abortMsg))
  | some d =>
    if d ≤ timeout then
      match net.result with
      | .ok r => (false, .ok r)
      | .error m => (false, .error (.network m))
    else (true, .error (.abort net.abortMsg))

/-! ### `loadNews` and its schedule -/

/-- The decoded news payload: `data.items`, which may be absent. -/
structure NewsPayload where
  items : Option (List NewsItem)

/-- The markup `loadNews` assigns on failure:
`<p style="color:red;">Erreur chargement actus : ${err.message}</p>`. -/
def errorHTML (msg : String) : String :=
  "<p style=\"color:red;\">Erreur chargement actus : " ++ msg ++ "</p>"

/-- `loadNews()`: shows the loading placeholder, awaits
`fetchWithTimeout(API_URL, { timeout: 15000 })`, throws
`Erreur HTTP ${status}` when `!response.ok`, decodes the JSON and
renders it; any error caught replaces the container content with the
error markup. -/
def loadNews (fmt : String → String) (net : FetchSpec NewsPayload)
    (_c : Container) : Container :=
  let loadingShown : Container := [.blob loadingHTML]
  match (fetchWithTimeout 15000 net).2 with
  | .error e => [.blob (errorHTML e.message)]
  | .ok resp =>
    if resp.ok then
      match resp.json with
      | .ok data => displayNews fmt data.items loadingShown
      | .error m => [.blob (errorHTML m)]
    else [.blob (errorHTML ("Erreur HTTP " ++ toString resp.status))]

/-- The refresh period passed to `setInterval(loadNews, 120000)`. -/
def NEWS_INTERVAL : Nat := 120000

/-- State of the page's news schedule: the time of the most recent
`loadNews` invocation, the time at which the registered interval fires
next, the container contents, and how many invocations have run. -/
structure NewsLoop where
  time : Nat
  nextFire : Nat
  container : Container
  invocations : Nat

/-- The tail of the `DOMContentLoaded` handler: `loadNews()` runs
immediately (time 0) and `setInterval(loadNews, 120000)` schedules the
first interval fire at 120000. -/
def newsStart (fmt : String → String) (o : FetchSpec NewsPayload)
    (c : Container) : NewsLoop :=
  { time := 0
    nextFire := NEWS_INTERVAL
    container := loadNews fmt o c
    invocations := 1 }

/-- One interval fire: `loadNews` runs again at `nextFire`, and the
interval re-arms one period later.  `loadNews` traps every failure
internally, so the callback never throws and the interval is never
cancelled. -/
def newsTick (fmt : String → String) (o : FetchSpec NewsPayload)
    (s : NewsLoop) : NewsLoop :=
  { time := s.nextFire
    nextFire := s.nextFire + NEWS_INTERVAL
    container := loadNews fmt o s.container
    invocations := s.invocations + 1 }

/-- The schedule after `k` interval fires, with `outcomes n` the
network behaviour seen by the `n`-th invocation (`0` = the startup
call). -/
def newsRun (fmt : String → String) (outcomes : Nat → FetchSpec NewsPayload)
    (c : Container) : Nat → NewsLoop
  | 0 => newsStart fmt (outcomes 0) c
  | k + 1 => newsTick fmt (outcomes (k + 1)) (newsRun fmt outcomes c k)

/-! ### News container bootstrapping -/

/-- A top-level element of the host document, identified by its `id`
attribute. -/
structure PageElem where
  id : String
  children : Container

/-- The diagnostic emitted by `console.warn` when `#news` is absent. -/
def newsWarnMsg : String :=
  "⚠️ #news était absent dans le HTML, il a été créé automatiquement."

/-- The head of the `DOMContentLoaded` handler:
`document.getElementById("news")`, creating, attaching and warning when
absent.  Returns the document afterwards, the index of the container
used for all renders, and the console warnings emitted. -/
def initNewsContainer (doc : List PageElem) :
    List PageElem × Nat × List String :=
  match doc.findIdx? (fun e => e.id == "news") with
  | some i => (doc, i, [])
  | none => (doc ++ [⟨"news", []⟩], doc.length, [newsWarnMsg])

/-- Replace the element at index `i` (out-of-range leaves the list
unchanged). -/
def updateAt {α : Type} : List α → Nat → (α → α) → List α
  | [], _, _ => []
  | x :: xs, 0, f => f x :: xs
  | x :: xs, n + 1, f => x :: updateAt xs n f

/-- A render through the reference obtained at initialization: the
element at index `i` gets its children replaced by
`displayNews(items)`. -/
def renderNewsInto (doc : List PageElem) (i : Nat) (fmt : String → String)
    (items : Option (List NewsItem)) : List PageElem :=
  updateAt doc i (fun e => { e with children := displayNews fmt items e.children })

/-! ### Chat widget (`app.js`) -/

/-- `const BOT_URL = "https://en-pole.onrender.com/chat"`. -/
def BOT_URL : String := "https://en-pole.onrender.com/chat"

/-- JavaScript `String.prototype.trim`: strip leading and trailing
whitespace.  (Modelled over the ASCII whitespace characters recognised
by `Char.isWhitespace`; `String.trim` itself is avoided because its
byte-position arithmetic does not reduce.) -/
def jsTrim (s : String) : String :=
  String.mk (((s.data.dropWhile Char.isWhitespace).reverse.dropWhile
    Char.isWhitespace).reverse)

/-- A JSON value, as far as the scripts build one. -/
inductive JsonVal where
  | str (s : String)
  | obj (fields : List (String × JsonVal))

/-- One request handed to `fetch`.  `body` is the value that
`JSON.stringify` serialises; `abortTimerMs` is the delay of a timer
wired to abort the request through its `signal` option, `none` when no
signal is attached at all. -/
structure HttpRequest where
  url : String
  method : String
  headers : List (String × String)
  body : Option JsonVal
  abortTimerMs : Option Nat

/-- The request issued by the submit listener:
`fetch(BOT_URL, { method: "POST", headers: ..., body: JSON.stringify(...) })`.
No `signal` is passed and no timer is started, so no abort timer is
attached. -/
def chatRequest (userMessage : String) : HttpRequest :=
  { url := BOT_URL
    method := "POST"
    headers := [("Content-Type", "application/json")]
    body := some (.obj [("message", .str userMessage)])
    abortTimerMs := none }

/-- State of the chat widget's DOM: the children of `#chat-messages`,
and the `value`, `disabled` and focus state of `#chat-input`;
`scrolledToEnd` records `scrollTop = scrollHeight` after an append. -/
structure ChatState where
  messages : List DomNode
  inputValue : String
  inputDisabled : Bool
  inputFocused : Bool
  scrolledToEnd : Bool
  deriving DecidableEq

/-- The element `addMessage` creates: a `div` with classes `message`
and the sender, whose `textContent` is the message. -/
def messageNode (sender message : String) : DomNode :=
  .element ⟨"div", ["message", sender], .text message⟩

/-- `addMessage(sender, message)`: append the element to
`#chat-messages` and scroll to the bottom. -/
def addMessage (sender message : String) (st : ChatState) : ChatState :=
  { st with
    messages := st.messages ++ [messageNode sender message]
    scrolledToEnd := true }

/-- `data.reply || "Le bot n'a pas répondu."` — the fixed fallback. -/
def chatFallback : String := "Le bot n\x27a pas répondu."

/-- The fixed first part of the failure message appended in `catch`:
`Erreur : impossible de contacter le bot.\n` (the error's own message
follows). -/
def chatErrorLead : String := "Erreur : impossible de contacter le bot.\n"

/-- JavaScript `a || b` for the optional `reply` field: an absent field
and the empty string are both falsy. -/
def jsOr (s : Option String) (fallback : String) : String :=
  match s with
  | some v => if v = "" then fallback else v
  | none => fallback

/-- How the network treats the chat request: `reject` is a rejection of
the `fetch` promise (transport failure), `respond` a settled response
whose `json` carries the decode of the body (payload: the optional
`reply` field). -/
inductive ChatNet where
  | reject (msg : String)
  | respond (status : Nat) (json : Except String (Option String))

/-- Whether the outcome makes the submission's `try` block throw:
a rejected fetch, a non-2xx status, or a JSON decode error. -/
def ChatNet.failing : ChatNet → Bool
  | .reject _ => true
  | .respond status json =>
    !isOkStatus status ||
      (match json with
       | .error _ => true
       | .ok _ => false)

/-- `error.message` of the exception the `try` block throws on a
failing outcome (`""` on a non-failing one). -/
def ChatNet.errText : ChatNet → String
  | .reject m => m
  | .respond status json =>
    if isOkStatus status then
      match json with
      | .error m => m
      | .ok _ => ""
    else "Erreur HTTP " ++ toString status

/-- The `chat-form` submit listener: trim the input and ignore blank
submissions; otherwise append the user message, clear and disable the
input, issue the POST, append the bot reply (or the failure message
from `catch`), and in `finally` re-enable and focus the input.  The
second component lists the requests handed to `fetch`. -/
def chatSubmit (net : ChatNet) (st : ChatState) :
    ChatState × List HttpRequest :=
  let userMessage := jsTrim st.inputValue
  if userMessage = "" then (st, [])
  else
    let st1 := addMessage "user" userMessage st
    let st2 := { st1 with inputValue := "", inputDisabled := true }
    let st3 :=
      match net with
      | .reject m => addMessage "bot" (chatErrorLead ++ m) st2
      | .respond status json =>
        if isOkStatus status then
          match json with
          | .ok reply => addMessage "bot" (jsOr reply chatFallback) st2
          | .error m => addMessage "bot" (chatErrorLead ++ m) st2
        else addMessage "bot" (chatErrorLead ++ ("Erreur HTTP " ++ toString status)) st2
    ({ st3 with inputDisabled := false, inputFocused := true },
     [chatRequest userMessage])

/-- Whether a node is a bot-styled chat message (an element carrying
the `bot` class). -/
def isBotStyled : DomNode → Bool
  | .element el => el.classes.contains "bot"
  | .blob _ => false

/-- The text a user reads for a node. -/
def nodeText : DomNode → String
  | .element el => el.content.renderedText
  | .blob html => NodeContent.renderedText (.markup html)

/-! ### Concrete instances used by witnesses and counterexamples -/

/-- A sample news item. -/
def itemW : NewsItem :=
  ⟨"Titre", "Résumé", "https://exemple.fr/a", "2025-01-01T10:00:00Z",
   ["AFP", "Reuters"]⟩

/-- A chat DOM state whose input is whitespace only. -/
def stBlank : ChatState := ⟨[], "   ", false, false, false⟩

/-- A chat DOM state holding a non-blank input. -/
def stChat : ChatState := ⟨[], "bonjour", false, false, false⟩

/-- A 404 response carrying a decodable empty payload. -/
def respNF : Response NewsPayload := { status := 404, json := .ok ⟨some []⟩ }

/-- A network that answers `respNF` after 100 ms. -/
def netNF : FetchSpec NewsPayload :=
  { delay := some 100
    result := .ok respNF
    abortMsg := "The operation was aborted." }

/-- A network that never answers. -/
def netHang : FetchSpec NewsPayload :=
  { delay := none
    result := .error "unreachable"
    abortMsg := "The operation was aborted." }

/-- A host document without any `news` element. -/
def doc0 : List PageElem := [⟨"header", []⟩, ⟨"chat-form", []⟩]

/-! ### Helper lemmas -/

/-- Folding appends of singletons is `map`. -/
theorem foldl_append_map {α β : Type} (f : α → β) (l : List α)
    (acc : List β) :
    l.foldl (fun a x => a ++ [f x]) acc = acc ++ l.map f := by
  induction l generalizing acc with
  | nil => simp
  | cons x xs ih => simp [ih]

/-- Updating the element just past `l` in `l ++ [x]` applies `f` to
`x`. -/
theorem updateAt_append_length {α : Type} (l : List α) (x : α)
    (f : α → α) :
    updateAt (l ++ [x]) l.length f = l ++ [f x] := by
  induction l with
  | nil => rfl
  | cons y ys ih => simp [updateAt, ih]

/-! ### Claims -/

/-- C3: for every item sequence of length ≥ 1, the news render produces
exactly one rendered block per item, in input order, after clearing the
container (the result does not depend on the prior children), each
block a `news-item` element whose markup contains the title, the
summary, the anchor to the item's URL with `target="_blank"
rel="noopener"`, the formatted local timestamp, and the comma-joined
sources. -/
theorem news_render_blocks (fmt : String → String) (items : List NewsItem)
    (c : Container) (h : 1 ≤ items.length) :
    displayNews fmt (some items) c = items.map (newsItemNode fmt) ∧
    (∀ c' : Container,
      displayNews fmt (some items) c' = displayNews fmt (some items) c) ∧
    ∀ it ∈ items,
      newsItemNode fmt it
        = .element ⟨"div", ["news-item"], .markup (newsItemHTML fmt it)⟩ ∧
      containsStr it.title (newsItemHTML fmt it) ∧
      containsStr it.summary (newsItemHTML fmt it) ∧
      containsStr (anchorHTML it.url) (newsItemHTML fmt it) ∧
      containsStr (fmt it.published_at) (newsItemHTML fmt it) ∧
      containsStr (String.intercalate ", " it.sources) (newsItemHTML fmt it) := by
  have hne : ¬ items.length = 0 := by omega
  have hmain : ∀ c' : Container,
      displayNews fmt (some items) c' = items.map (newsItemNode fmt) := by
    intro c'
    simp only [displayNews, if_neg hne]
    simpa using foldl_append_map (newsItemNode fmt) items []
  refine ⟨hmain c, fun c' => (hmain c').trans (hmain c).symm, ?_⟩
  intro it _
  refine ⟨rfl, ?_, ?_, ?_, ?_, ?_⟩
  · exact ⟨"\n        <h3>",
      "</h3>\n        <p>" ++ it.summary ++ "</p>\n        " ++
        anchorHTML it.url ++ "\n        <small>Publié le " ++
        fmt it.published_at ++ " — Sources: " ++
        String.intercalate ", " it.sources ++ "</small>\n      ",
      by simp [newsItemHTML, String.append_assoc]⟩
  · exact ⟨"\n        <h3>" ++ it.title ++ "</h3>\n        <p>",
      "</p>\n        " ++ anchorHTML it.url ++
        "\n        <small>Publié le " ++ fmt it.published_at ++
        " — Sources: " ++ String.intercalate ", " it.sources ++
        "</small>\n      ",
      by simp [newsItemHTML, String.append_assoc]⟩
  · exact ⟨"\n        <h3>" ++ it.title ++ "</h3>\n        <p>" ++
        it.summary ++ "</p>\n        ",
      "\n        <small>Publié le " ++ fmt it.published_at ++
        " — Sources: " ++ String.intercalate ", " it.sources ++
        "</small>\n      ",
      by simp [newsItemHTML, String.append_assoc]⟩
  · exact ⟨"\n        <h3>" ++ it.title ++ "</h3>\n        <p>" ++
        it.summary ++ "</p>\n        " ++ anchorHTML it.url ++
        "\n        <small>Publié le ",
      " — Sources: " ++ String.intercalate ", " it.sources ++
        "</small>\n      ",
      by simp [newsItemHTML, String.append_assoc]⟩
  · exact ⟨"\n        <h3>" ++ it.title ++ "</h3>\n        <p>" ++
        it.summary ++ "</p>\n        " ++ anchorHTML it.url ++
        "\n        <small>Publié le " ++ fmt it.published_at ++
        " — Sources: ",
      "</small>\n      ",
      by simp [newsItemHTML, String.append_assoc]⟩

/-- C3 witness: a singleton item list renders to exactly its one
block. -/
theorem news_render_blocks_witness :
    1 ≤ [itemW].length ∧
    displayNews id (some [itemW]) [] = [itemW].map (newsItemNode id) :=
  ⟨by decide, (news_render_blocks id [itemW] [] (by decide)).1⟩

/-- C4: rendering with an empty item list and with an absent item list
both assign the fixed "no news" placeholder and append no per-item
block. -/
theorem news_render_no_items (fmt : String → String) (c : Container) :
    displayNews fmt none c = [DomNode.blob noNewsHTML] ∧
    displayNews fmt (some []) c = [DomNode.blob noNewsHTML] ∧
    (displayNews fmt none c).countP isItemBlock = 0 ∧
    (displayNews fmt (some []) c).countP isItemBlock = 0 :=
  ⟨rfl, rfl, rfl, rfl⟩

/-- C10: `addMessage` stores the message as the new element's plain
`textContent`, never as markup, so its rendered text is the message
verbatim for every string; the news renderer instead stores
interpolated markup, and markup is genuinely parsed (a tagged string
does not render verbatim). -/
theorem chat_message_plain_text (sender message : String) (st : ChatState) :
    (addMessage sender message st).messages
      = st.messages ++ [messageNode sender message] ∧
    messageNode sender message
      = .element ⟨"div", ["message", sender], .text message⟩ ∧
    nodeText (messageNode sender message) = message ∧
    NodeContent.renderedText (.text message) = message ∧
    (∀ fmt it, newsItemNode fmt it
      = .element ⟨"div", ["news-item"], .markup (newsItemHTML fmt it)⟩) ∧
    NodeContent.renderedText (.markup "<b>salut</b>") ≠ "<b>salut</b>" :=
  ⟨rfl, rfl, rfl, rfl, fun _ _ => rfl, by decide⟩

/-- C6: a submission whose input is blank after trimming is ignored:
the widget state is unchanged (nothing appended, input untouched) and
no request is issued. -/
theorem chat_blank_ignored (net : ChatNet) (st : ChatState)
    (h : jsTrim st.inputValue = "") :
    chatSubmit net st = (st, []) := by
  simp [chatSubmit, h]

/-- C6 witness: a whitespace-only input is ignored. -/
theorem chat_blank_ignored_witness :
    jsTrim stBlank.inputValue = "" ∧
    chatSubmit (.reject "panne") stBlank = (stBlank, []) :=
  ⟨by decide, chat_blank_ignored (.reject "panne") stBlank (by decide)⟩

/-- C7: for every non-blank submission the input ends up re-enabled and
focused regardless of outcome, and on every failing outcome the log
gains the user message plus exactly one bot-styled message whose
rendered text contains the underlying error text. -/
theorem chat_failure_reply (net : ChatNet) (st : ChatState)
    (h : ¬ jsTrim st.inputValue = "") :
    ((chatSubmit net st).1.inputDisabled = false ∧
      (chatSubmit net st).1.inputFocused = true) ∧
    (net.failing = true →
      (chatSubmit net st).1.messages
        = st.messages ++
          [messageNode "user" (jsTrim st.inputValue),
           messageNode "bot" (chatErrorLead ++ net.errText)] ∧
      List.countP isBotStyled
        [messageNode "user" (jsTrim st.inputValue),
         messageNode "bot" (chatErrorLead ++ net.errText)] = 1 ∧
      containsStr net.errText
        (nodeText (messageNode "bot" (chatErrorLead ++ net.errText)))) := by
  have hcount : List.countP isBotStyled
      [messageNode "user" (jsTrim st.inputValue),
       messageNode "bot" (chatErrorLead ++ net.errText)] = 1 := rfl
  have hcontains : containsStr net.errText
      (nodeText (messageNode "bot" (chatErrorLead ++ net.errText))) :=
    ⟨chatErrorLead, "", by
      simp [nodeText, messageNode, NodeContent.renderedText,
        String.append_empty]⟩
  cases net with
  | reject m =>
    refine ⟨⟨?_, ?_⟩, fun _ => ⟨?_, hcount, hcontains⟩⟩ <;>
      simp [chatSubmit, h, addMessage, ChatNet.errText]
  | respond status json =>
    by_cases hok : isOkStatus status = true
    · cases json with
      | ok reply =>
        refine ⟨⟨?_, ?_⟩, fun hf => ?_⟩
        · simp [chatSubmit, h, addMessage, hok]
        · simp [chatSubmit, h, addMessage, hok]
        · exact absurd hf (by simp [ChatNet.failing, hok])
      | error m =>
        refine ⟨⟨?_, ?_⟩, fun _ => ⟨?_, hcount, hcontains⟩⟩ <;>
          simp [chatSubmit, h, addMessage, hok, ChatNet.errText]
    · refine ⟨⟨?_, ?_⟩, fun _ => ⟨?_, hcount, hcontains⟩⟩ <;>
        simp [chatSubmit, h, addMessage, hok, ChatNet.errText]

/-- C7 witness: a rejected request appends the user message and one
bot-styled failure message, and the input is re-enabled and focused. -/
theorem chat_failure_reply_witness :
    ¬ jsTrim stChat.inputValue = "" ∧
    ((chatSubmit (.reject "panne réseau") stChat).1.inputDisabled = false ∧
      (chatSubmit (.reject "panne réseau") stChat).1.inputFocused = true) :=
  ⟨by decide, (chat_failure_reply (.reject "panne réseau") stChat (by decide)).1⟩

/-- C1 counterexample: on a concrete non-blank submission the listener
issues exactly one request, and that request has no abort timer wired
to it at all — in particular it is not subject to a 15000 ms timeout,
refuting the claim's timeout part. -/
theorem chat_no_timeout_counterexample :
    (chatSubmit (.respond 200 (.ok (some "salut"))) stChat).2
      = [chatRequest "bonjour"] ∧
    (chatRequest "bonjour").abortTimerMs = none ∧
    ¬ (chatRequest "bonjour").abortTimerMs = some 15000 :=
  ⟨rfl, rfl, by simp [chatRequest]⟩

/-- C1 amended: every non-blank submission issues exactly one POST to
`BOT_URL` with the JSON body `message: <trimmed text>`, but the request
carries no abort timer, hence no 15-second (or any client-side)
timeout. -/
theorem chat_request_shape (net : ChatNet) (st : ChatState)
    (h : ¬ jsTrim st.inputValue = "") :
    (chatSubmit net st).2 = [chatRequest (jsTrim st.inputValue)] ∧
    chatRequest (jsTrim st.inputValue) =
      { url := BOT_URL
        method := "POST"
        headers := [("Content-Type", "application/json")]
        body := some (.obj [("message", .str (jsTrim st.inputValue))])
        abortTimerMs := none } := by
  refine ⟨?_, rfl⟩
  simp [chatSubmit, h]

/-- C1 amended witness: the concrete submission issues its single
POST. -/
theorem chat_request_shape_witness :
    ¬ jsTrim stChat.inputValue = "" ∧
    (chatSubmit (.reject "panne") stChat).2
      = [chatRequest (jsTrim stChat.inputValue)] :=
  ⟨by decide, (chat_request_shape (.reject "panne") stChat (by decide)).1⟩

/-- C2 counterexample: a 404 arriving within the timeout makes
`fetchWithTimeout` resolve successfully with the response — the call
itself does not fail on non-success statuses. -/
theorem fetch_nonok_counterexample :
    fetchWithTimeout 15000 netNF = (false, Except.ok respNF) ∧
    respNF.ok = false :=
  ⟨rfl, rfl⟩

/-- C2 amended: on a non-2xx response arriving within the timeout,
`fetchWithTimeout` returns the response to its caller unchanged, and it
is the caller `loadNews` that fails, rendering the error markup carrying
`Erreur HTTP <status>`. -/
theorem fetch_nonok_caller_fails (fmt : String → String)
    (net : FetchSpec NewsPayload) (resp : Response NewsPayload) (d : Nat)
    (c : Container) (hd : net.delay = some d) (hdt : d ≤ 15000)
    (hres : net.result = Except.ok resp) (hok : resp.ok = false) :
    fetchWithTimeout 15000 net = (false, Except.ok resp) ∧
    loadNews fmt net c
      = [.blob (errorHTML ("Erreur HTTP " ++ toString resp.status))] := by
  have h1 : fetchWithTimeout 15000 net = (false, Except.ok resp) := by
    simp [fetchWithTimeout, hd, hdt, hres]
  exact ⟨h1, by simp [loadNews, h1, hok]⟩

/-- C2 amended witness: the concrete 404 network makes `loadNews`
render `Erreur HTTP 404`. -/
theorem fetch_nonok_caller_fails_witness :
    netNF.delay = some 100 ∧ 100 ≤ 15000 ∧
    netNF.result = Except.ok respNF ∧ respNF.ok = false ∧
    loadNews id netNF []
      = [.blob (errorHTML ("Erreur HTTP " ++ toString respNF.status))] :=
  ⟨rfl, by decide, rfl, rfl,
    (fetch_nonok_caller_fails id netNF respNF 100 [] rfl (by decide) rfl rfl).2⟩

/-- C5: whenever the timer elapses strictly before the fetch would
settle (or the fetch would never settle), the pending request is
aborted (`controller.abort()` runs, first component `true`) and the
call returns the abort failure — the timeout error of the spec — so the
caller never waits past the timeout. -/
theorem fetch_timeout_aborts {α : Type} (timeout : Nat) (net : FetchSpec α)
    (h : ∀ d, net.delay = some d → timeout < d) :
    fetchWithTimeout timeout net = (true, .error (.abort net.abortMsg)) := by
  match hd : net.delay with
  | none => simp [fetchWithTimeout, hd]
  | some d =>
    have hlt := h d hd
    simp [fetchWithTimeout, hd, Nat.not_le.mpr hlt]

/-- C5 witness: a network that never answers is aborted at the
timeout. -/
theorem fetch_timeout_aborts_witness :
    (∀ d, netHang.delay = some d → 15000 < d) ∧
    fetchWithTimeout 15000 netHang
      = (true, .error (.abort netHang.abortMsg)) :=
  ⟨fun _ hd => Option.noConfusion hd,
    fetch_timeout_aborts 15000 netHang fun _ hd => Option.noConfusion hd⟩

/-- C8: the news refresh runs once at startup (time 0) and the `k`-th
invocation runs at `k * 120000`; for every sequence of outcomes —
failing ones included — invocation `k + 1` still happens and applies
`loadNews` to the previous container, so no failure stops the
schedule. -/
theorem news_refresh_schedule (fmt : String → String)
    (outcomes : Nat → FetchSpec NewsPayload) (c : Container) (k : Nat) :
    (newsRun fmt outcomes c k).invocations = k + 1 ∧
    (newsRun fmt outcomes c k).time = k * NEWS_INTERVAL ∧
    (newsRun fmt outcomes c k).nextFire = (k + 1) * NEWS_INTERVAL ∧
    newsRun fmt outcomes c (k + 1)
      = newsTick fmt (outcomes (k + 1)) (newsRun fmt outcomes c k) ∧
    (newsRun fmt outcomes c (k + 1)).container
      = loadNews fmt (outcomes (k + 1))
          ((newsRun fmt outcomes c k).container) := by
  induction k with
  | zero =>
    refine ⟨rfl, rfl, ?_, rfl, rfl⟩
    simp [newsRun, newsStart]
  | succ n ih =>
    obtain ⟨h1, h2, h3, _, _⟩ := ih
    refine ⟨?_, ?_, ?_, rfl, rfl⟩
    · simp [newsRun, newsTick, h1]
    · simp [newsRun, newsTick, h3]
    · simp [newsRun, newsTick, h3, Nat.succ_mul]

/-- C9: when no `news` element exists, initialization appends one to
the document, returns its index for all later renders, and emits the
diagnostic; afterwards exactly one `news` element exists, and a render
through the returned index rewrites exactly that element's children
with the rendered news. -/
theorem news_container_bootstrap (doc : List PageElem)
    (h : ∀ e ∈ doc, ¬ e.id = "news") :
    initNewsContainer doc = (doc ++ [⟨"news", []⟩], doc.length, [newsWarnMsg]) ∧
    (doc ++ [(⟨"news", []⟩ : PageElem)]).countP (fun e => e.id == "news") = 1 ∧
    ∀ fmt items,
      renderNewsInto (doc ++ [⟨"news", []⟩]) doc.length fmt items
        = doc ++ [⟨"news", displayNews fmt items []⟩] := by
  have hnone : doc.findIdx? (fun e => e.id == "news") = none := by
    rw [List.findIdx?_eq_none_iff]
    intro e he
    simpa using h e he
  refine ⟨?_, ?_, ?_⟩
  · simp [initNewsContainer, hnone]
  · rw [List.countP_append]
    have h0 : doc.countP (fun e => e.id == "news") = 0 := by
      rw [List.countP_eq_zero]
      intro e he
      simpa using h e he
    simp [h0]
  · intro fmt items
    exact updateAt_append_length doc _ _

/-- C9 witness: a document lacking `news` gets the container appended
with the diagnostic emitted. -/
theorem news_container_bootstrap_witness :
    (∀ e ∈ doc0, ¬ e.id = "news") ∧
    initNewsContainer doc0
      = (doc0 ++ [⟨"news", []⟩], doc0.length, [newsWarnMsg]) :=
  ⟨by decide, (news_container_bootstrap doc0 (by decide)).1⟩

end ENPole
